import Mathlib

/-!
Verification of the document-generation pipeline of the Pump Service
Checklist application.

The repository contains two composer variants:
* `src/utils/generatePDF.ts` (called V1 below): the 15-item checklist
  variant (sections 1–5 with a pump-preparation group), 7 important
  notes, tables nested inside per-section `stack` blocks.
* `src/unnamed/part_003` (called V2 below): the 6-item pre-service-only
  variant, 5 important notes, flat content list with tables at top level,
  language-keyed default font.

The embedding below translates those sources into Lean definitions:
pure layout-tree construction becomes pure functions on a `Content`
inductive mirroring the pdfmake block shapes the code produces; the
asynchronous image normalizer (`loadImage`) becomes a function of an
explicit environment (fetched bytes, decoded dimensions, decode/canvas
availability) into an outcome type that distinguishes a promise that
resolves from one that never settles.  Positioning attributes that no
claim concerns (margins, column widths, page margins) are omitted;
texts, styles, structure, canvas geometry, table bodies and layouts,
fonts, and control flow are kept.  JavaScript number arithmetic in the
resize path is modelled over `ℚ` (exact arithmetic).
-/

namespace PumpChecklist

/-- The two language tags, `'en' | 'th'` in the source. -/
inductive Lang where
  | en
  | th
deriving DecidableEq, Repr

/-- A bilingual string pair, `{ en: ..., th: ... }` in the source. -/
structure Bi where
  en : String
  th : String
deriving DecidableEq, Repr

/-- Selection of one half of a bilingual pair, `pair[language]`. -/
def Bi.select (b : Bi) : Lang → String
  | .en => b.en
  | .th => b.th

/-- `interface FormData` of `generatePDF.ts` (string-valued form fields;
`training_hours?: string` is optional, modelled as `Option String`). -/
structure FormData where
  company : String
  site_location : String
  contact_person : String
  department : String
  phone : String
  email : String
  pump_model : String
  serial_number : String
  manufacture_year : String
  operating_hours : String
  last_service_date : String
  installation_date : String
  temperature : String
  flow_rate : String
  suction_pressure : String
  discharge_pressure : String
  total_head : String
  pumped_medium : String
  service_reason : String
  training_hours : Option String
deriving DecidableEq, Repr

/-- `interface Checkboxes` of `generatePDF.ts` (15 flags). -/
structure Checkboxes where
  system_flush : Bool
  safety_training : Bool
  harmless_form : Bool
  sds : Bool
  alignment_report : Bool
  operation_records : Bool
  power_isolated : Bool
  valves_locked : Bool
  pump_drained : Bool
  auxiliary_disconnected : Bool
  coupling_guard_removed : Bool
  coupling_disconnected : Bool
  pump_cleaned : Bool
  openings_protected : Bool
  photos_taken : Bool
deriving DecidableEq, Repr

/-- `interface Checkboxes` of `part_003` (the 6 pre-service flags only). -/
structure CheckboxesV2 where
  system_flush : Bool
  safety_training : Bool
  harmless_form : Bool
  sds : Bool
  alignment_report : Bool
  operation_records : Bool
deriving DecidableEq, Repr

/-- JavaScript truthiness of `formData.training_hours` (an optional
string): `undefined` and `''` are falsy, any other string is truthy. -/
def jsTruthy : Option String → Bool
  | none => false
  | some s => s != ""

/-- The string value used when interpolating an optional field (only
reached under a truthiness guard in the source). -/
def optVal : Option String → String
  | none => "undefined"
  | some s => s

/-- JavaScript `s || '-'`: the empty string is falsy and is replaced by
the placeholder dash. -/
def orDash (s : String) : String :=
  if s = "" then "-" else s

/-! ## Image normalizer (`loadImage` in both variants, identical code) -/

/-- `const maxImageSize = 500 * 1024` — the 500 KiB limit. -/
def maxImageSize : Nat := 500 * 1024

/-- The dimension computation of the resize branch of `loadImage`,
translated from the source:

    const aspectRatio = width / height;
    if (width > 800)  { width = 800; height = width / aspectRatio; }
    if (height > 800) { height = 800; width = height * aspectRatio; }

The aspect ratio is computed once from the original dimensions. -/
def resizeDims (width height : ℚ) : ℚ × ℚ :=
  let ar := width / height
  let p1 : ℚ × ℚ := if 800 < width then (800, 800 / ar) else (width, height)
  if 800 < p1.2 then (800 * ar, 800) else p1

/-- Modelled from the spec (for refinement comparison with `resizeDims`):
"if W > 800, scale both dimensions by 800/W; then, independently, if the
resulting H > 800, scale both by 800/H" — each cap rescales the
already-scaled pair. -/
def specTwoStageResize (width height : ℚ) : ℚ × ℚ :=
  let p1 : ℚ × ℚ :=
    if 800 < width then (width * (800 / width), height * (800 / width))
    else (width, height)
  if 800 < p1.2 then (p1.1 * (800 / p1.2), p1.2 * (800 / p1.2)) else p1

/-- Environment of one `loadImage` call: the fetched blob's bytes, the
decoded pixel dimensions, whether `fetch` succeeds, whether the
`Image` decode fires `onload`, and whether `canvas.getContext('2d')`
returns a context. -/
structure ImageEnv where
  bytes : List Nat
  width : ℚ
  height : ℚ
  fetchOk : Bool
  decodeOk : Bool
  ctxOk : Bool
deriving DecidableEq, Repr

/-- The payload a settled `loadImage` promise carries: either the raw
fetched bytes encoded directly as a data URL by `FileReader.readAsDataURL`
(no recompression, no dimension change), or a JPEG re-encoding at the
given target dimensions and quality from `canvas.toDataURL`, or the
empty string resolved when no 2D context is available. -/
inductive ImagePayload where
  | dataUrl (bytes : List Nat)
  | jpeg (w h quality : ℚ)
  | empty
deriving DecidableEq, Repr

/-- The outcome of one `loadImage` call: the promise resolves with a
payload, or never settles, or the call rejects (an `await` threw). -/
inductive LoadOutcome where
  | resolved (p : ImagePayload)
  | pending
  | threw
deriving DecidableEq, Repr

/-- Shallow embedding of `loadImage` (identical in both variants).
If the fetch throws, the `await` propagates the rejection.  If the blob
exceeds `maxImageSize`, the resize branch builds a `new Image()`; its
`onload` handler (fired only when decoding succeeds — no `onerror`
handler is installed, so a decode failure leaves the promise pending
forever) redraws at `resizeDims` on a canvas and resolves the JPEG
data URL at quality 0.7, or resolves `''` when `getContext('2d')`
returns null.  Otherwise the raw blob is read back as a data URL. -/
def loadImage (env : ImageEnv) : LoadOutcome :=
  if env.fetchOk = false then .threw
  else if maxImageSize < env.bytes.length then
    if env.decodeOk then
      if env.ctxOk then
        .resolved (.jpeg (resizeDims env.width env.height).1
          (resizeDims env.width env.height).2 (7 / 10))
      else .resolved .empty
    else .pending
  else .resolved (.dataUrl env.bytes)

/-! ## Layout-block model (the pdfmake content shapes the code produces) -/

/-- A canvas vector element: the checkbox square / checkmark strokes
(`CanvasRect` / `CanvasLine` interfaces of the source) and the filled
rounded title rectangle of V2. -/
inductive CanvasElement where
  | rect (x y w h lineW : ℚ) (lineColor : String)
  | rectFill (x y w h r : ℚ) (color : String)
  | line (x1 y1 x2 y2 lineW : ℚ) (lineColor : String)
deriving DecidableEq, Repr

/-- A table cell: its text and optional style-token name. -/
structure Cell where
  text : String
  style : Option String
deriving DecidableEq, Repr

/-- The `lightHorizontalLines` rule set: `hLineWidth` is a function of
the rule index and the table body length, the rest are the constant
values the source's closures return. -/
structure LayoutRules where
  hLineWidth : Nat → Nat → ℚ
  vLineWidth : ℚ
  hLineColor : String
  paddingLeft : ℚ
  paddingRight : ℚ
  paddingTop : ℚ
  paddingBottom : ℚ

/-- A table's `layout` property: either a layout name string (as set
inline, `layout: 'lightHorizontalLines'`) or a custom rule-set object
(as assigned by the post-pass). -/
inductive TableLayoutRef where
  | named (s : String)
  | custom (r : LayoutRules)

/-- One layout block of the document tree.  Constructors mirror the
object shapes the source builds: text leaves with an optional style
token, images, canvas drawings, column rows, stacks (with the
`unbreakable` flag of V1's sections), tables, and bulleted lists. -/
inductive Content where
  | text (s : String) (style : Option String)
  | image (payload : String)
  | canvas (els : List CanvasElement)
  | columns (cols : List Content)
  | stack (unbreakable : Bool) (items : List Content)
  | table (widths : List String) (body : List (List Cell)) (layout : TableLayoutRef)
  | ul (items : List String) (style : Option String)

/-- `createCheckboxItem` (identical in both variants): a two-column row
whose first column draws a 10×10 outlined square plus — only when
`checked` — two line segments forming a checkmark, and whose second
column is the label text. -/
def createCheckboxItem (checked : Bool) (text : String) : Content :=
  let box : CanvasElement := .rect 0 0 10 10 1 "#374151"
  let checkmark : List CanvasElement :=
    if checked then
      [.line 2 5 4 8 (3 / 2) "#1F2937", .line 4 8 8 2 (3 / 2) "#1F2937"]
    else []
  .columns [.canvas (box :: checkmark), .text text none]

/-! ## Bilingual constants of V1 (`generatePDF.ts`) -/

/-- The English safety-training label (identical in both variants):
`` `Safety Training required? ${formData.training_hours ? `(${formData.training_hours} hours)` : ''}` ``. -/
def safetyLabelEn (t : Option String) : String :=
  "Safety Training required? " ++
    (if jsTruthy t then "(" ++ optVal t ++ " hours)" else "")

/-- The Thai safety-training label of V1. -/
def safetyLabelThV1 (t : Option String) : String :=
  "ต้องรารการฝึกอบรมความปลอดภัยหรือไม่? " ++
    (if jsTruthy t then "(" ++ optVal t ++ " ชั่วโมง)" else "")

/-- The Thai safety-training label of V2 (the wording differs from V1
by one syllable in the question). -/
def safetyLabelThV2 (t : Option String) : String :=
  "ต้องการการฝึกอบรมความปลอดภัยหรือไม่? " ++
    (if jsTruthy t then "(" ++ optVal t ++ " ชั่วโมง)" else "")

/-- The bilingual pair rendered at the safety-training site of V1. -/
def safetyPairV1 (t : Option String) : Bi :=
  ⟨safetyLabelEn t, safetyLabelThV1 t⟩

/-- The bilingual pair rendered at the safety-training site of V2. -/
def safetyPairV2 (t : Option String) : Bi :=
  ⟨safetyLabelEn t, safetyLabelThV2 t⟩

/-- The shape of V1's `sectionTitles` record. -/
structure SectionTitlesV1T where
  customerDetails : Bi
  pumpInfo : Bi
  operatingConditions : Bi
  pumpPreparation : Bi
  preparationChecklist : Bi
  preServiceRequirements : Bi
  importantNotes : Bi

/-- V1 `sectionTitles`. -/
def sectionTitlesV1 : SectionTitlesV1T where
  customerDetails := ⟨"1. Customer Details", "1. รายละเอียดลูกค้า"⟩
  pumpInfo := ⟨"2. Pump Information", "2. ข้อมูลปั๊ม"⟩
  operatingConditions := ⟨"3. Operating Conditions", "3. สภาวะการทำงานจริง"⟩
  pumpPreparation := ⟨"4. Pump Preparation (By Customer or WFA)", "4. การเตรียมปั๊ม (โดยลูกค้าหรือ WFA)"⟩
  preparationChecklist := ⟨"5. Customer Preparation Checklist", "5. รายการเตรียมความพร้มองลูกค้า"⟩
  preServiceRequirements := ⟨"Pre-Service Requirements", "ข้อกำหนดก่อนเข้าซ่อม"⟩
  importantNotes := ⟨"Important Notes:", "หลายเหตุสำคัญ:"⟩

/-- V1 `importantNotes` (7 entries). -/
def importantNotesV1 : List Bi :=
  [⟨"All work must be performed by qualified personnel only",
    "งานทั้งหมดต้องดำเนินการโดยบุคลากรที่มีคุณสมบัติเท่านั้น"⟩,
   ⟨"Follow all safety protocols and guidelines",
    "ปฏิบัติตามขั้นตอนและแนวทางด้านความปลอดภัยทั้งหมด"⟩,
   ⟨"Maintain proper documentation throughout the service process",
    "รักษาเอกสารที่เหมาะสมตลอดกระบวนการให้บริการ"⟩,
   ⟨"Use only OEM parts or approved equivalents",
    "ใช้เฉพาะชิ้นส่วน OEM หรือชิ้นส่วนที่ได้รับการอนุมัติเท่านั้น"⟩,
   ⟨"Follow all safety protocols, especially regarding magnetic coupling hazards",
    "ปฏิบัติตามโปรโตคอลความปลอดภัยทั้งหมด โดยเฉพาะอย่างยิ่งเกี่ยวกับอันตรายจากการเชื่อมต่อแม่เหล็ก"⟩,
   ⟨"Refer to manufacturer's manual for specific torque values and clearances",
    "อ้างอิงคู่มือของผู้ผลิตสำหรับค่าแรงบิดและระยะห่างที่เฉพาะเจาะจง"⟩,
   ⟨"Required for magnetic coupling handling - keep sensitive items at minimum 1m distance",
    "จำเป็นสำหรับการจัดการการเชื่อมต่อแม่เหล็ก - เก็บรักษาอุปกรณ์ที่มีความอ่อนไหวในระยะห่างอย่างน้อย 1 เมตร"⟩]

/-- The shape of V1's `docHeader` record. -/
structure DocHeader where
  company : Bi
  address1 : Bi
  address2 : Bi
  address3 : Bi
  phone : Bi
  docNo : Bi
  revision : Bi
  date : Bi

/-- V1 `docHeader`: the bilingual header pairs; the date pair wraps the
wall-clock date string (passed in as `dateStr`). -/
def docHeaderV1 (dateStr : String) : DocHeader where
  company := ⟨"Water Field Asia Co., Ltd.", "บริษท วอเตอร์ฟิลด์ เอเชีย จำกัด"⟩
  address1 := ⟨"623 Soi Onnut 70/1 Sub 2", "623 ซอยอ่อนนุช 70/1 แยก 2"⟩
  address2 := ⟨"Pravet Sub-District, Pravet District,", "แขวงประเวศ เขตประเวศ"⟩
  address3 := ⟨"Bangkok 10250", "กรุงเทพมหานคร 10250"⟩
  phone := ⟨"Tel.: +66 2320 1994", "โทร: +66 2320 1994"⟩
  docNo := ⟨"Document No: FM-WFA-SER-057", "เลขที่เอกสาร: FM-WFA-SER-057"⟩
  revision := ⟨"Revision: 00", "แก้ไขครั้งที่: 00"⟩
  date := ⟨"Date: " ++ dateStr, "วันที่: " ++ dateStr⟩

/-- The shape of the `translations` record (the 19 table and paragraph
labels; both variants share the keys). -/
structure Translations where
  company : Bi
  siteLocation : Bi
  contactPerson : Bi
  department : Bi
  phone : Bi
  email : Bi
  pumpModel : Bi
  serialNumber : Bi
  yearOfManufacture : Bi
  operatingHours : Bi
  lastServiceDate : Bi
  installationDate : Bi
  temperature : Bi
  flowRate : Bi
  suctionPressure : Bi
  dischargePressure : Bi
  totalHead : Bi
  pumpedMedium : Bi
  serviceReason : Bi

/-- V1 `translations`. -/
def translationsV1 : Translations where
  company := ⟨"Company:", "บริษท:"⟩
  siteLocation := ⟨"Site Location:", "สถานที่ติดตั้ง:"⟩
  contactPerson := ⟨"Contact Person:", "ผู้ติดต่อ:"⟩
  department := ⟨"Department:", "แผนก:"⟩
  phone := ⟨"Phone:", "โทรศัพท์:"⟩
  email := ⟨"Email:", "อีเมล:"⟩
  pumpModel := ⟨"Pump Model:", "รุ่นปั๊ม:"⟩
  serialNumber := ⟨"Serial Number:", "หมายเลขเครื่อง:"⟩
  yearOfManufacture := ⟨"Year of Manufacture:", "ปีท่ผลิต:"⟩
  operatingHours := ⟨"Operating Hours:", "ชั่วโมงการทำงาน:"⟩
  lastServiceDate := ⟨"Last Service Date:", "วันที่เข้าซ่อมครั้งล่าสุด:"⟩
  installationDate := ⟨"Installation Date:", "วันที่ติดตั้ง:"⟩
  temperature := ⟨"Temperature (°C):", "อุณหภูมิ (°C):"⟩
  flowRate := ⟨"Flow Rate (m³/h):", "อัตราการไหล (m³/h):"⟩
  suctionPressure := ⟨"Suction Pressure (bar):", "แรงดันด้านดูด (bar):"⟩
  dischargePressure := ⟨"Discharge Pressure (bar):", "แรงดันด้านส่ง (bar):"⟩
  totalHead := ⟨"Total Head (m):", "เฮดรมม (m):"⟩
  pumpedMedium := ⟨"Pumped Medium:", "ของเหลวที่สูบ:"⟩
  serviceReason := ⟨"Description of Issues/Reason for Service:", "รายละเอียดปัญหา/เหตุผลในการเข้าซ่ม:"⟩

/-- The system-flush checklist label (identical in both variants). -/
def pSystemFlush : Bi :=
  ⟨"System flushed (if hazardous/hardening materials)", "ล้างระบบแล้ว (กรณีสารอันตราย/สารที่แข็งตัว)"⟩

/-- The harmless-form checklist label, V1 wording. -/
def pHarmlessFormV1 : Bi :=
  ⟨"Declaration of Harmlessness form (in the operation manual)", "แบบฟอร์มการประกาศความไม่เป็นอันตราย (ในคู่มือการใช้าน)"⟩

/-- The harmless-form checklist label, V2 wording. -/
def pHarmlessFormV2 : Bi :=
  ⟨"Declaration of Harmlessness form (in the operation manual)", "แบบฟอร์มการประกาศความไม่เป็นอันตราย (ในคู่มือการใช้งาน)"⟩

/-- The SDS checklist label, V1 wording. -/
def pSdsV1 : Bi := ⟨"Safety Data Sheet (SDS) available", "มีเอกสารขมูลความปลอดภัย (SDS)"⟩

/-- The SDS checklist label, V2 wording. -/
def pSdsV2 : Bi := ⟨"Safety Data Sheet (SDS) available", "มีเอกสารข้อมูลความปลอดภัย (SDS)"⟩

/-- The alignment-report checklist label (identical in both variants). -/
def pAlignmentReport : Bi := ⟨"Alignment report available", "มีรายงานการปรับแนวเพลา"⟩

/-- The operation-records checklist label (identical in both variants). -/
def pOperationRecords : Bi := ⟨"Operation records available", "มีบันทึกการทำงาน"⟩

/-- The six pre-service checklist label pairs of V1, in document order
(the safety-training pair at index 1). -/
def preServicePairsV1 (t : Option String) : List Bi :=
  [pSystemFlush, safetyPairV1 t, pHarmlessFormV1, pSdsV1, pAlignmentReport, pOperationRecords]

/-- The six pre-service checklist label pairs of V2, in document order. -/
def preServicePairsV2 (t : Option String) : List Bi :=
  [pSystemFlush, safetyPairV2 t, pHarmlessFormV2, pSdsV2, pAlignmentReport, pOperationRecords]

/-- The nine pump-preparation checklist label pairs of V1 (section 4). -/
def pumpPreparationPairsV1 : List Bi :=
  [⟨"Pump isolated from power supply (customer responsibility)", "ปั๊มถูกตัดแยกจากแหล่งจ่ายไฟ (ความรับผิดชอบของลูกค้า)"⟩,
   ⟨"Suction/discharge valves locked (customer responsibility)", "วาล์วดูด/จ่ายถูกล็อค (ความรับผิดชอบของลูกค้า)"⟩,
   ⟨"Pump drained (customer responsibility)", "ระบายของเหลวออกจากปั๊ม (ความรับผิดชอบของลูกค้า)"⟩,
   ⟨"Auxiliary systems disconnected (e.g., external sensors)", "ระบบเสริมถูกตัดการเชื่อมต่อ (เช่น เซ็นเอรภายนอก)"⟩,
   ⟨"Coupling guard removed", "ฝาครอบคัปปลิ��งถูกถอดออก"⟩,
   ⟨"Coupling disconnected", "คัปปลิ้งถูกถอดออก"⟩,
   ⟨"Pump cleaned externally", "ทำความสะอาดภายนอกปั๊ม"⟩,
   ⟨"All openings protected", "ช่องเปิดทั้งหมดได้รับการป้องกัน"⟩,
   ⟨"Photographs taken (if possible)", "ถ่ายภาพ (ถ้าเป็นไปได้)"⟩]

/-- V1 `preServiceChecklist`: the six checkbox rows built from the six
pre-service flags and their bilingual labels. -/
def preServiceChecklistV1 (fd : FormData) (cb : Checkboxes) (lang : Lang) : List Content :=
  [createCheckboxItem cb.system_flush (pSystemFlush.select lang),
   createCheckboxItem cb.safety_training ((safetyPairV1 fd.training_hours).select lang),
   createCheckboxItem cb.harmless_form (pHarmlessFormV1.select lang),
   createCheckboxItem cb.sds (pSdsV1.select lang),
   createCheckboxItem cb.alignment_report (pAlignmentReport.select lang),
   createCheckboxItem cb.operation_records (pOperationRecords.select lang)]

/-- The nine pump-preparation checkbox rows of V1's section 4. -/
def pumpPreparationChecklistV1 (cb : Checkboxes) (lang : Lang) : List Content :=
  (pumpPreparationPairsV1.zip
    [cb.power_isolated, cb.valves_locked, cb.pump_drained, cb.auxiliary_disconnected,
     cb.coupling_guard_removed, cb.coupling_disconnected, cb.pump_cleaned,
     cb.openings_protected, cb.photos_taken]).map
    fun p => createCheckboxItem p.2 (p.1.select lang)

/-- One key/value table row: a bold label cell selected from a bilingual
pair, and a value cell holding the form field or the placeholder dash
(`formData.x || '-'`). -/
def kvRow (b : Bi) (lang : Lang) (v : String) : List Cell :=
  [⟨b.select lang, some "label"⟩, ⟨orDash v, none⟩]

/-- The customer-details table body (rows as in both variants, with the
variant's `translations`). -/
def customerBody (tr : Translations) (fd : FormData) (lang : Lang) : List (List Cell) :=
  [kvRow tr.company lang fd.company,
   kvRow tr.siteLocation lang fd.site_location,
   kvRow tr.contactPerson lang fd.contact_person,
   kvRow tr.department lang fd.department,
   kvRow tr.phone lang fd.phone,
   kvRow tr.email lang fd.email]

/-- The pump-information table body. -/
def pumpInfoBody (tr : Translations) (fd : FormData) (lang : Lang) : List (List Cell) :=
  [kvRow tr.pumpModel lang fd.pump_model,
   kvRow tr.serialNumber lang fd.serial_number,
   kvRow tr.yearOfManufacture lang fd.manufacture_year,
   kvRow tr.operatingHours lang fd.operating_hours,
   kvRow tr.lastServiceDate lang fd.last_service_date,
   kvRow tr.installationDate lang fd.installation_date]

/-- The operating-conditions table body. -/
def operatingBody (tr : Translations) (fd : FormData) (lang : Lang) : List (List Cell) :=
  [kvRow tr.temperature lang fd.temperature,
   kvRow tr.flowRate lang fd.flow_rate,
   kvRow tr.suctionPressure lang fd.suction_pressure,
   kvRow tr.dischargePressure lang fd.discharge_pressure,
   kvRow tr.totalHead lang fd.total_head,
   kvRow tr.pumpedMedium lang fd.pumped_medium]

/-- The content tree of V1's `docDefinition` (seven top-level blocks:
header columns, five unbreakable section stacks, and the notes stack).
Tables carry the inline `layout: 'lightHorizontalLines'` name. -/
def contentV1 (fd : FormData) (cb : Checkboxes) (lang : Lang) (dateStr : String)
    (logoBase64 qrBase64 : String) : List Content :=
  let h := docHeaderV1 dateStr
  let tr := translationsV1
  [.columns
    [.stack false
      [.image logoBase64,
       .text (h.company.select lang) (some "headerCompany"),
       .text (h.address1.select lang) (some "headerAddress"),
       .text (h.address2.select lang) (some "headerAddress"),
       .text (h.address3.select lang) (some "headerAddress"),
       .text (h.phone.select lang) (some "headerAddress")],
     .stack false
      [.stack false
        [.text (h.docNo.select lang) (some "headerDoc"),
         .text (h.revision.select lang) (some "headerDoc"),
         .text (h.date.select lang) (some "headerDoc")],
       .image qrBase64]],
   .stack true
    [.text (sectionTitlesV1.customerDetails.select lang) (some "sectionHeader"),
     .table ["30%", "70%"] (customerBody tr fd lang) (.named "lightHorizontalLines")],
   .stack true
    [.text (sectionTitlesV1.pumpInfo.select lang) (some "sectionHeader"),
     .table ["30%", "70%"] (pumpInfoBody tr fd lang) (.named "lightHorizontalLines")],
   .stack true
    [.text (sectionTitlesV1.operatingConditions.select lang) (some "sectionHeader"),
     .table ["30%", "70%"] (operatingBody tr fd lang) (.named "lightHorizontalLines"),
     .text (tr.serviceReason.select lang) (some "label"),
     .text (orDash fd.service_reason) none],
   .stack true
    [.text (sectionTitlesV1.pumpPreparation.select lang) (some "sectionHeader"),
     .stack false (pumpPreparationChecklistV1 cb lang)],
   .stack true
    [.text (sectionTitlesV1.preparationChecklist.select lang) (some "sectionHeader"),
     .stack false (preServiceChecklistV1 fd cb lang)],
   .stack true
    [.text (sectionTitlesV1.importantNotes.select lang) (some "subHeader"),
     .ul (importantNotesV1.map (Bi.select · lang)) (some "list")]]

/-! ## Bilingual constants of V2 (`part_003`) -/

/-- The shape of V2's `sectionTitles` record (no pump-preparation
section in this variant). -/
structure SectionTitlesV2T where
  customerDetails : Bi
  pumpInfo : Bi
  operatingConditions : Bi
  preparationChecklist : Bi
  preServiceRequirements : Bi
  importantNotes : Bi

/-- V2 `sectionTitles`. -/
def sectionTitlesV2 : SectionTitlesV2T where
  customerDetails := ⟨"1. Customer Details", "1. รายละเอียดลูกค้า"⟩
  pumpInfo := ⟨"2. Pump Information", "2. ข้อมูลปั๊ม"⟩
  operatingConditions := ⟨"3. Operating Conditions", "3. สภาวะการทำงานจริง"⟩
  preparationChecklist := ⟨"4. Customer Preparation Checklist", "4. รายการเตรียมความพร้อมของลูกค้า"⟩
  preServiceRequirements := ⟨"Pre-Service Requirements", "ข้อกำหนดก่อนเข้าซ่อม"⟩
  importantNotes := ⟨"Important Notes:", "หมายเหตุสำคัญ:"⟩

/-- V2 `importantNotes` (5 entries). -/
def importantNotesV2 : List Bi :=
  [⟨"All work must be performed by qualified personnel only",
    "งทั้งหมดต้องดำเนิการโดยบุคลากรที่มีคุณสมบัติเท่านั้น"⟩,
   ⟨"Maintain proper documentation throughout the service process",
    "รักษาเอกสารที่เหมาะสมตลอดกระบวนการให้บริการ"⟩,
   ⟨"Use only OEM parts or approved equivalents",
    "ใช้เฉพาะชิ้นส่วน OEM หรือชิ้นส่วนที่ได้รับการอนุมัติเท่านั้น"⟩,
   ⟨"Follow all safety protocols, especially regarding magnetic coupling hazards",
    "ปฏิบัติตามโปรโตคอลความปลอดภัยทั้งหมด โดยเฉพาะอย่างยิ่งเกี่ยวกับอันตรายจากการเชื่อมต่อแม่เหล็ก"⟩,
   ⟨"Refer to manufacturer's manual for specific torque values and clearances",
    "อ้างอิงคู่มือของผู้ผลิตสำหรับค่าแรงบิดและระยะห่างที่เฉพาะเจาะจ"⟩]

/-- V2 `translations` (wording of several Thai labels differs from V1). -/
def translationsV2 : Translations where
  company := ⟨"Company:", "บริษัท:"⟩
  siteLocation := ⟨"Site Location:", "สถานที่ติดตั้ง:"⟩
  contactPerson := ⟨"Contact Person:", "ผู้ติดต่อ:"⟩
  department := ⟨"Department:", "แผนก:"⟩
  phone := ⟨"Phone:", "โทรศัพท์:"⟩
  email := ⟨"Email:", "อีเมล:"⟩
  pumpModel := ⟨"Pump Model:", "รุ่นปั๊ม:"⟩
  serialNumber := ⟨"Serial Number:", "หมายเลขเครื่อง:"⟩
  yearOfManufacture := ⟨"Year of Manufacture:", "ปีที่ผลิต:"⟩
  operatingHours := ⟨"Operating Hours:", "ชั่วโมงการทำงาน:"⟩
  lastServiceDate := ⟨"Last Service Date:", "วันที่เข้าซ่อมครั้งล่าสุด:"⟩
  installationDate := ⟨"Installation Date:", "วันที่ติดตั้ง:"⟩
  temperature := ⟨"Temperature (°C):", "อุณหภูมิ (°C):"⟩
  flowRate := ⟨"Flow Rate (m³/h):", "อัตราการไล (m³/h):"⟩
  suctionPressure := ⟨"Suction Pressure (bar):", "แรงดันด้านดูด (bar):"⟩
  dischargePressure := ⟨"Discharge Pressure (bar):", "แรงดันด้านส่ง (bar):"⟩
  totalHead := ⟨"Total Head (m):", "เฮดรวม (m):"⟩
  pumpedMedium := ⟨"Pumped Medium:", "ของเหลวที่สูบ:"⟩
  serviceReason := ⟨"Description of Issues/Reason for Service:", "รายละเอียดปัญหา/เหตุผลในการเข้าซ่อม:"⟩

/-- V2's header pairs (written inline in the source as
`language === 'en' ? ... : ...`; the date is the fixed literal
`15.11.2024`). -/
def docHeaderV2 : DocHeader where
  company := ⟨"Water Field Asia Co., Ltd.", "บริษัท วอเตอร์ฟิลด์ เอเชีย จำกัด"⟩
  address1 := ⟨"623 Soi Onnut 70/1 Sub 2", "623 ซอยอ่อนนุช 70/1 แยก 2"⟩
  address2 := ⟨"Pravet Sub-District, Pravet District,", "แขวงประเวศ เขตประเวศ"⟩
  address3 := ⟨"Bangkok 10250", "กรุงเทพมหานคร 10250"⟩
  phone := ⟨"Tel.: +66 2320 1994", "โทร: +66 2320 1994"⟩
  docNo := ⟨"Document No: FM-WFA-SER-057", "เลขที่เอกสาร: FM-WFA-SER-057"⟩
  revision := ⟨"Revision: 00", "แก้ไขครั้งที่: 00"⟩
  date := ⟨"Date: 15.11.2024", "วันที่: 15.11.2024"⟩

/-- V2's big document title pair (overlaid on the filled rectangle). -/
def titlePairV2 : Bi := ⟨"Pump Service Checklist", "รายการตรวจ��อบการบริการปั๊ม"⟩

/-- V2 `preServiceChecklist`: the six checkbox rows. -/
def preServiceChecklistV2 (fd : FormData) (cb : CheckboxesV2) (lang : Lang) : List Content :=
  [createCheckboxItem cb.system_flush (pSystemFlush.select lang),
   createCheckboxItem cb.safety_training ((safetyPairV2 fd.training_hours).select lang),
   createCheckboxItem cb.harmless_form (pHarmlessFormV2.select lang),
   createCheckboxItem cb.sds (pSdsV2.select lang),
   createCheckboxItem cb.alignment_report (pAlignmentReport.select lang),
   createCheckboxItem cb.operation_records (pOperationRecords.select lang)]

/-- The content tree of V2's `docDefinition`: a flat list (header
columns, title canvas and overlaid title text, section headers and
tables at top level, the six checkbox rows spread at top level, notes).
Tables carry the inline `layout: 'lightHorizontalLines'` name. -/
def contentV2 (fd : FormData) (cb : CheckboxesV2) (lang : Lang)
    (logoBase64 qrBase64 : String) : List Content :=
  let h := docHeaderV2
  let tr := translationsV2
  [.columns
    [.image logoBase64,
     .stack false
      [.text (h.company.select lang) (some "headerCompany"),
       .text (h.address1.select lang) (some "headerAddress"),
       .text (h.address2.select lang) (some "headerAddress"),
       .text (h.address3.select lang) (some "headerAddress"),
       .text (h.phone.select lang) (some "headerAddress")],
     .stack false
      [.text (h.docNo.select lang) (some "headerDoc"),
       .text (h.revision.select lang) (some "headerDoc"),
       .text (h.date.select lang) (some "headerDoc"),
       .image qrBase64]],
   .canvas [.rectFill 0 0 515 40 4 "#F3F4F6"],
   .text (titlePairV2.select lang) (some "title"),
   .text (sectionTitlesV2.customerDetails.select lang) (some "sectionHeader"),
   .table ["30%", "70%"] (customerBody tr fd lang) (.named "lightHorizontalLines"),
   .text (sectionTitlesV2.pumpInfo.select lang) (some "sectionHeader"),
   .table ["30%", "70%"] (pumpInfoBody tr fd lang) (.named "lightHorizontalLines"),
   .text (sectionTitlesV2.operatingConditions.select lang) (some "sectionHeader"),
   .table ["30%", "70%"] (operatingBody tr fd lang) (.named "lightHorizontalLines"),
   .text (tr.serviceReason.select lang) (some "label"),
   .text (orDash fd.service_reason) none,
   .text (sectionTitlesV2.preparationChecklist.select lang) (some "sectionHeader"),
   .text (sectionTitlesV2.preServiceRequirements.select lang) (some "subHeader")]
  ++ preServiceChecklistV2 fd cb lang
  ++ [.text (sectionTitlesV2.importantNotes.select lang) (some "subHeader"),
      .ul (importantNotesV2.map (Bi.select · lang)) (some "list")]

/-! ## Styles, table layout rule set, document definition, post-pass -/

/-- One named style's typographic attributes (margins omitted).  `font`
is the per-style font-family override slot; neither variant sets it in
any style, so it is `none` throughout. -/
structure StyleDef where
  font : Option String := none
  fontSize : Option ℚ := none
  bold : Option Bool := none
  alignment : Option String := none
  color : Option String := none
  fillColor : Option String := none
  lineHeight : Option ℚ := none
deriving DecidableEq, Repr

/-- The `styles` table, shared verbatim by both variants except for the
header sizes; `hdrCompanySize`/`hdrAddrSize`/`hdrDocSize` carry the
variant-specific numbers. -/
def stylesTable (hdrCompanySize hdrAddrSize hdrDocSize : ℚ)
    (hdrLineHeight : ℚ) : List (String × StyleDef) :=
  [("title",
    { fontSize := some 20, bold := some true, alignment := some "center",
      color := some "#111827" }),
   ("headerCompany",
    { fontSize := some hdrCompanySize, bold := some true, color := some "#111827" }),
   ("headerAddress",
    { fontSize := some hdrAddrSize, color := some "#4B5563",
      lineHeight := some hdrLineHeight }),
   ("headerDoc",
    { fontSize := some hdrDocSize, color := some "#4B5563",
      lineHeight := some hdrLineHeight, alignment := some "right" }),
   ("sectionHeader",
    { fontSize := some 14, bold := some true, color := some "#111827",
      fillColor := some "#F9FAFB" }),
   ("subHeader",
    { fontSize := some 12, bold := some true, color := some "#374151" }),
   ("label",
    { fontSize := some 11, bold := some true, color := some "#374151" }),
   ("list",
    { fontSize := some 11, color := some "#4B5563", lineHeight := some (8 / 5) })]

/-- V1 `styles` (header company 14pt, address/doc 9pt, line height 1.2). -/
def stylesV1 : List (String × StyleDef) := stylesTable 14 9 9 (6 / 5)

/-- V2 `styles` (header company 16pt, address 11pt, doc 10pt, line
height 1.6). -/
def stylesV2 : List (String × StyleDef) := stylesTable 16 11 10 (8 / 5)

/-- `defaultStyle` of a document definition. -/
structure DefaultStyle where
  font : String
  fontSize : ℚ
  lineHeight : ℚ
  color : String
deriving DecidableEq, Repr

/-- V1 `defaultStyle`: the font is the constant `'Roboto'` for both
languages (V1 registers no Thai font family at all). -/
def defaultStyleV1 (_lang : Lang) : DefaultStyle :=
  ⟨"Roboto", 11, 6 / 5, "#1F2937"⟩

/-- V2 `defaultStyle`: `font: language === 'en' ? 'Roboto' : 'THSarabunNew'`,
`fontSize: language === 'en' ? 11 : 13`. -/
def defaultStyleV2 (lang : Lang) : DefaultStyle :=
  ⟨if lang = .en then "Roboto" else "THSarabunNew",
   if lang = .en then 11 else 13, 6 / 5, "#1F2937"⟩

/-- The font families each variant registers on the engine before the
call (`pdfMake.fonts = ...`). -/
def registeredFontsV1 : List String := ["Roboto"]

/-- V2 registers both a Latin and a Thai family. -/
def registeredFontsV2 : List String := ["Roboto", "THSarabunNew"]

/-- The custom `lightHorizontalLines` rule set of `tableLayout`
(identical in both variants): rules of width 0.5 between rows only
(0 above the first row — index 0 — and below the last — index equal to
the body length), zero-width vertical rules, light gray rule color,
paddings 0 left/right and 8 top/bottom. -/
def lightHorizontalLinesRules : LayoutRules where
  hLineWidth := fun i bodyLen => if i = 0 ∨ i = bodyLen then 0 else 1 / 2
  vLineWidth := 0
  hLineColor := "#E5E7EB"
  paddingLeft := 0
  paddingRight := 0
  paddingTop := 8
  paddingBottom := 8

/-- The post-pass over the built content (identical in both variants):
`content.forEach(item => { if ('table' in item) item.layout = tableLayout.lightHorizontalLines })`.
It walks only the top-level items of the content array; only table
blocks have a `table` key, and matching ones get the custom rule set. -/
def applyTableLayouts (content : List Content) : List Content :=
  content.map fun item =>
    match item with
    | .table w body _ => .table w body (.custom lightHorizontalLinesRules)
    | other => other

/-- A document definition: the default style, the style table, and the
content tree (page size and margins omitted; both variants use A4 with
the same margins). -/
structure DocDef where
  defaultStyle : DefaultStyle
  styles : List (String × StyleDef)
  content : List Content

/-- V1 `docDefinition` after the table-layout post-pass. -/
def docDefV1 (fd : FormData) (cb : Checkboxes) (lang : Lang) (dateStr : String)
    (logoBase64 qrBase64 : String) : DocDef where
  defaultStyle := defaultStyleV1 lang
  styles := stylesV1
  content := applyTableLayouts (contentV1 fd cb lang dateStr logoBase64 qrBase64)

/-- V2 `docDefinition` after the table-layout post-pass. -/
def docDefV2 (fd : FormData) (cb : CheckboxesV2) (lang : Lang)
    (logoBase64 qrBase64 : String) : DocDef where
  defaultStyle := defaultStyleV2 lang
  styles := stylesV2
  content := applyTableLayouts (contentV2 fd cb lang logoBase64 qrBase64)

/-! ## The `generatePDF` entry point -/

/-- The final outcome of one `generatePDF` call: the early `null` taken
when `window` is undefined, a settled blob, a promise that never
settles (an image promise stayed pending), or a raised failure. -/
inductive GenResult where
  | nullResult
  | blob
  | neverSettles
  | failure
deriving DecidableEq, Repr

/-- Environment of one `generatePDF` call: whether a `window` global
exists, and the fetch/decode environments of the two image assets. -/
structure GenEnv where
  windowDefined : Bool
  logo : ImageEnv
  qr : ImageEnv
deriving DecidableEq, Repr

/-- A stand-in rendering of a settled image payload as the data-URL
string the code passes into the `image` slots (base64 text abstracted;
the empty payload is the empty string the code resolves). -/
def payloadText : ImagePayload → String
  | .empty => ""
  | .dataUrl bytes => "data:base64;len" ++ toString bytes.length
  | .jpeg w h q => "data:image/jpeg;" ++ toString w ++ "x" ++ toString h ++ "@" ++ toString q

/-- What one `generatePDF` call (V1) did: its result, the asset URLs it
fetched, and the document definition handed to the rendering engine
(`none` when the engine was never invoked). -/
structure GenOutcome where
  result : GenResult
  fetched : List String
  rendered : Option DocDef

/-- Shallow embedding of V1 `generatePDF`: return `null` at once when
`window` is undefined (before any fetch, tree build, or engine call);
otherwise fetch and normalize both images, build the document
definition, run the table-layout post-pass, and hand the definition to
the engine.  If an image promise rejects the call fails; if one stays
pending the `await Promise.all` never settles. -/
def generatePDFModel (env : GenEnv) (fd : FormData) (cb : Checkboxes) (lang : Lang)
    (dateStr : String) : GenOutcome :=
  if env.windowDefined = false then ⟨.nullResult, [], none⟩
  else
    match loadImage env.logo, loadImage env.qr with
    | .threw, _ => ⟨.failure, ["/Logo.png", "/QR.jpeg"], none⟩
    | _, .threw => ⟨.failure, ["/Logo.png", "/QR.jpeg"], none⟩
    | .resolved l, .resolved q =>
        ⟨.blob, ["/Logo.png", "/QR.jpeg"],
         some (docDefV1 fd cb lang dateStr (payloadText l) (payloadText q))⟩
    | _, _ => ⟨.neverSettles, ["/Logo.png", "/QR.jpeg"], none⟩

/-! ## Extraction functions over content trees

These are observation functions used to state the claims; they are not
part of the source. -/

mutual

/-- Built-in (bilingual) visible strings of one block, in reading
order: styled text leaves, label-styled table cells, bulleted-list
items, and the label texts of checkbox rows (the unstyled text column
inside a `columns` block).  Unstyled texts outside `columns` and
unstyled table cells are the verbatim form-data value sites, which are
not built-in strings.  `inCols` records being inside a `columns` row. -/
def builtinTextsC (inCols : Bool) : Content → List String
  | .text s st => if st.isSome || inCols then [s] else []
  | .image _ => []
  | .canvas _ => []
  | .columns cols => builtinTextsL true cols
  | .stack _ items => builtinTextsL inCols items
  | .table _ body _ =>
      (body.map fun row => (row.filter fun c => c.style = some "label").map Cell.text).flatten
  | .ul items _ => items

/-- `builtinTextsC` over a list of blocks. -/
def builtinTextsL (inCols : Bool) : List Content → List String
  | [] => []
  | c :: cs => builtinTextsC inCols c ++ builtinTextsL inCols cs

end

/-- All built-in visible strings of a content tree. -/
def builtinTexts (content : List Content) : List String :=
  builtinTextsL false content

mutual

/-- The form-data value sites of one block: unstyled table cells and
unstyled text paragraphs outside `columns` rows. -/
def valueTextsC (inCols : Bool) : Content → List String
  | .text s st => if st.isNone && !inCols then [s] else []
  | .image _ => []
  | .canvas _ => []
  | .columns cols => valueTextsL true cols
  | .stack _ items => valueTextsL inCols items
  | .table _ body _ =>
      (body.map fun row => (row.filter fun c => c.style.isNone).map Cell.text).flatten
  | .ul _ _ => []

/-- `valueTextsC` over a list of blocks. -/
def valueTextsL (inCols : Bool) : List Content → List String
  | [] => []
  | c :: cs => valueTextsC inCols c ++ valueTextsL inCols cs

end

/-- All value-cell strings of a content tree, in reading order. -/
def valueTexts (content : List Content) : List String :=
  valueTextsL false content

mutual

/-- The checkbox glyph rows of one block: a `columns` row whose first
column is a canvas starting with the outlined square.  Yields `true`
when the canvas also holds the two checkmark segments, `false` when it
holds the square alone. -/
def glyphRowsC : Content → List Bool
  | .columns (.canvas (.rect _ _ _ _ _ _ :: marks) :: _) => [!marks.isEmpty]
  | .columns cols => glyphRowsL cols
  | .stack _ items => glyphRowsL items
  | _ => []

/-- `glyphRowsC` over a list of blocks. -/
def glyphRowsL : List Content → List Bool
  | [] => []
  | c :: cs => glyphRowsC c ++ glyphRowsL cs

end

/-- The checked-flags of all checkbox glyph rows of a content tree. -/
def glyphRows (content : List Content) : List Bool :=
  glyphRowsL content

mutual

/-- The layout references of every table block of one tree, top-level
or nested. -/
def tableLayoutsC : Content → List TableLayoutRef
  | .table _ _ l => [l]
  | .columns cols => tableLayoutsL cols
  | .stack _ items => tableLayoutsL items
  | _ => []

/-- `tableLayoutsC` over a list of blocks. -/
def tableLayoutsL : List Content → List TableLayoutRef
  | [] => []
  | c :: cs => tableLayoutsC c ++ tableLayoutsL cs

end

/-- The layout references of all tables of a content tree. -/
def tableLayouts (content : List Content) : List TableLayoutRef :=
  tableLayoutsL content

mutual

/-- The bodies of every table block of one tree, in reading order. -/
def tableBodiesC : Content → List (List (List Cell))
  | .table _ body _ => [body]
  | .columns cols => tableBodiesL cols
  | .stack _ items => tableBodiesL items
  | _ => []

/-- `tableBodiesC` over a list of blocks. -/
def tableBodiesL : List Content → List (List (List Cell))
  | [] => []
  | c :: cs => tableBodiesC c ++ tableBodiesL cs

end

/-- The bodies of all tables of a content tree. -/
def tableBodies (content : List Content) : List (List (List Cell)) :=
  tableBodiesL content

mutual

/-- The bulleted lists of one tree. -/
def ulItemsC : Content → List (List String)
  | .ul items _ => [items]
  | .columns cols => ulItemsL cols
  | .stack _ items => ulItemsL items
  | _ => []

/-- `ulItemsC` over a list of blocks. -/
def ulItemsL : List Content → List (List String)
  | [] => []
  | c :: cs => ulItemsC c ++ ulItemsL cs

end

/-- The bulleted lists of a content tree. -/
def ulItems (content : List Content) : List (List String) :=
  ulItemsL content

/-- The bilingual pairs behind the built-in text sites of V1, in the
reading order of `contentV1`: header and address lines, section
headers, table labels, checklist item labels, and the notes list. -/
def builtinPairsV1 (t : Option String) (dateStr : String) : List Bi :=
  let h := docHeaderV1 dateStr
  let tr := translationsV1
  let st := sectionTitlesV1
  [h.company, h.address1, h.address2, h.address3, h.phone, h.docNo, h.revision, h.date,
   st.customerDetails, tr.company, tr.siteLocation, tr.contactPerson, tr.department,
   tr.phone, tr.email,
   st.pumpInfo, tr.pumpModel, tr.serialNumber, tr.yearOfManufacture, tr.operatingHours,
   tr.lastServiceDate, tr.installationDate,
   st.operatingConditions, tr.temperature, tr.flowRate, tr.suctionPressure,
   tr.dischargePressure, tr.totalHead, tr.pumpedMedium, tr.serviceReason,
   st.pumpPreparation] ++ pumpPreparationPairsV1 ++
  [st.preparationChecklist] ++ preServicePairsV1 t ++
  [st.importantNotes] ++ importantNotesV1

/-- The bilingual pairs behind the built-in text sites of V2, in the
reading order of `contentV2`. -/
def builtinPairsV2 (t : Option String) : List Bi :=
  let h := docHeaderV2
  let tr := translationsV2
  let st := sectionTitlesV2
  [h.company, h.address1, h.address2, h.address3, h.phone, h.docNo, h.revision, h.date,
   titlePairV2,
   st.customerDetails, tr.company, tr.siteLocation, tr.contactPerson, tr.department,
   tr.phone, tr.email,
   st.pumpInfo, tr.pumpModel, tr.serialNumber, tr.yearOfManufacture, tr.operatingHours,
   tr.lastServiceDate, tr.installationDate,
   st.operatingConditions, tr.temperature, tr.flowRate, tr.suctionPressure,
   tr.dischargePressure, tr.totalHead, tr.pumpedMedium, tr.serviceReason,
   st.preparationChecklist, st.preServiceRequirements] ++ preServicePairsV2 t ++
  [st.importantNotes] ++ importantNotesV2

/-! ## Concrete fixtures -/

/-- The all-empty form snapshot. -/
def emptyFd : FormData :=
  ⟨"", "", "", "", "", "", "", "", "", "", "", "", "", "", "", "", "", "", "", none⟩

/-- The scenario snapshot: `company = "Acme Co"`, all other fields empty. -/
def acmeFd : FormData :=
  { emptyFd with company := "Acme Co" }

/-- The all-false 15-flag checklist. -/
def cbAllFalse : Checkboxes :=
  ⟨false, false, false, false, false, false, false, false,
   false, false, false, false, false, false, false⟩

/-- The all-false 6-flag checklist. -/
def cb2AllFalse : CheckboxesV2 := ⟨false, false, false, false, false, false⟩

/-- A small image environment: one byte, well under the threshold. -/
def smallImg : ImageEnv := ⟨[7], 100, 50, true, true, true⟩

/-- Bytes of an oversized blob (one byte over the threshold). -/
def bigBytes : List Nat := List.replicate (maxImageSize + 1) 0

/-- An oversized image whose canvas context is unavailable. -/
def bigImgNoCtx : ImageEnv := ⟨bigBytes, 1000, 500, true, true, false⟩

/-- An oversized image whose decode fails (`onload` never fires). -/
def bigImgNoDecode : ImageEnv := ⟨bigBytes, 1000, 500, true, false, true⟩

/-- A generate environment with a window and two small images. -/
def envOk : GenEnv := ⟨true, smallImg, smallImg⟩

/-- A generate environment without a window global. -/
def envNoWindow : GenEnv := ⟨false, smallImg, smallImg⟩

/-! ## Helper lemmas -/

/-- Two string concatenations with different total lengths differ. -/
theorem append_ne_of_length (a x b y : String)
    (h : a.length + x.length ≠ b.length + y.length) : a ++ x ≠ b ++ y := by
  intro he
  apply h
  have := congrArg String.length he
  simpa [String.length_append] using this

/-- The English and Thai V1 safety-training labels differ for every
training-hours value. -/
theorem safetyV1_ne (t : Option String) : safetyLabelEn t ≠ safetyLabelThV1 t := by
  rcases t with _ | s
  · decide
  · by_cases hs : s = ""
    · subst hs; decide
    · unfold safetyLabelEn safetyLabelThV1
      have ht : jsTruthy (some s) = true := by simp [jsTruthy, hs]
      rw [ht]
      simp only [if_pos rfl]
      apply append_ne_of_length
      have h1 : "(".length = 1 := by decide
      have h2 : " hours)".length = 7 := by decide
      have h3 : "ต้องรารการฝึกอบรมความปลอดภัยหรือไม่? ".length = 37 := by decide
      have h4 : " ชั่วโมง)".length = 9 := by decide
      have h5 : "Safety Training required? ".length = 26 := by decide
      simp [String.length_append, h1, h2, h3, h4, h5]
      omega

/-- The English and Thai V2 safety-training labels differ for every
training-hours value. -/
theorem safetyV2_ne (t : Option String) : safetyLabelEn t ≠ safetyLabelThV2 t := by
  rcases t with _ | s
  · decide
  · by_cases hs : s = ""
    · subst hs; decide
    · unfold safetyLabelEn safetyLabelThV2
      have ht : jsTruthy (some s) = true := by simp [jsTruthy, hs]
      rw [ht]
      simp only [if_pos rfl]
      apply append_ne_of_length
      have h1 : "(".length = 1 := by decide
      have h2 : " hours)".length = 7 := by decide
      have h3 : "ต้องการการฝึกอบรมความปลอดภัยหรือไม่? ".length = 37 := by decide
      have h4 : " ชั่วโมง)".length = 9 := by decide
      have h5 : "Safety Training required? ".length = 26 := by decide
      simp [String.length_append, h1, h2, h3, h4, h5]
      omega

/-- The two halves of the V1 date line differ for every date string. -/
theorem dateLine_ne (d : String) : "Date: " ++ d ≠ "วันที่: " ++ d := by
  apply append_ne_of_length
  simp
  decide

/-- Every bilingual pair of V1's built-in text sites has distinct
English and Thai halves. -/
theorem pairsV1_ne (t : Option String) (d : String) :
    ∀ b ∈ builtinPairsV1 t d, b.en ≠ b.th := by
  intro b hb
  simp only [builtinPairsV1, docHeaderV1, translationsV1, sectionTitlesV1,
    pumpPreparationPairsV1, preServicePairsV1, importantNotesV1, safetyPairV1,
    pSystemFlush, pHarmlessFormV1, pSdsV1, pAlignmentReport, pOperationRecords,
    List.mem_append, List.mem_cons, List.mem_singleton, List.not_mem_nil, or_false,
    or_assoc] at hb
  rcases hb with rfl|rfl|rfl|rfl|rfl|rfl|rfl|rfl|rfl|rfl|rfl|rfl|rfl|rfl|rfl|rfl|rfl|rfl|rfl|rfl|rfl|rfl|rfl|rfl|rfl|rfl|rfl|rfl|rfl|rfl|rfl|rfl|rfl|rfl|rfl|rfl|rfl|rfl|rfl|rfl|rfl|rfl|rfl|rfl|rfl|rfl|rfl|rfl|rfl|rfl|rfl|rfl|rfl|rfl|rfl
  all_goals first
    | decide
    | exact dateLine_ne d
    | exact safetyV1_ne t

/-- Every bilingual pair of V2's built-in text sites has distinct
English and Thai halves. -/
theorem pairsV2_ne (t : Option String) :
    ∀ b ∈ builtinPairsV2 t, b.en ≠ b.th := by
  intro b hb
  simp only [builtinPairsV2, docHeaderV2, translationsV2, sectionTitlesV2,
    preServicePairsV2, importantNotesV2, safetyPairV2, titlePairV2,
    pSystemFlush, pHarmlessFormV2, pSdsV2, pAlignmentReport, pOperationRecords,
    List.mem_append, List.mem_cons, List.mem_singleton, List.not_mem_nil, or_false,
    or_assoc] at hb
  rcases hb with rfl|rfl|rfl|rfl|rfl|rfl|rfl|rfl|rfl|rfl|rfl|rfl|rfl|rfl|rfl|rfl|rfl|rfl|rfl|rfl|rfl|rfl|rfl|rfl|rfl|rfl|rfl|rfl|rfl|rfl|rfl|rfl|rfl|rfl|rfl|rfl|rfl|rfl|rfl|rfl|rfl|rfl|rfl|rfl|rfl
  all_goals first
    | decide
    | exact safetyV2_ne t

/-- Pointwise disequality of two projections lifts to `Forall₂` of the
mapped lists. -/
theorem forall₂_ne_map (f g : Bi → String) (l : List Bi)
    (h : ∀ b ∈ l, f b ≠ g b) :
    List.Forall₂ (fun a b => a ≠ b) (l.map f) (l.map g) := by
  induction l with
  | nil => exact List.Forall₂.nil
  | cons b bs ih =>
      exact List.Forall₂.cons (h b (List.mem_cons_self b bs))
        (ih fun x hx => h x (List.mem_cons_of_mem _ hx))

/-! ## Claims -/

/-- C1: for every form snapshot, checklist and both languages, every
built-in text placed into the produced document definition (header and
address lines, section headers, table labels, checklist item labels,
and the notes list) is the member of its bilingual pair keyed by the
active language — the extracted text list is exactly the projection of
the site-pair list by the language — and for any fixed snapshot the
English and Thai documents differ at every such site (both variants). -/
theorem c1_language_selection_uniform (fd : FormData) (cb : Checkboxes)
    (cb2 : CheckboxesV2) (dateStr logo qr : String) :
    (∀ lang, builtinTexts (contentV1 fd cb lang dateStr logo qr) =
      (builtinPairsV1 fd.training_hours dateStr).map (Bi.select · lang)) ∧
    (∀ lang, builtinTexts (contentV2 fd cb2 lang logo qr) =
      (builtinPairsV2 fd.training_hours).map (Bi.select · lang)) ∧
    List.Forall₂ (fun a b => a ≠ b)
      (builtinTexts (contentV1 fd cb .en dateStr logo qr))
      (builtinTexts (contentV1 fd cb .th dateStr logo qr)) ∧
    List.Forall₂ (fun a b => a ≠ b)
      (builtinTexts (contentV2 fd cb2 .en logo qr))
      (builtinTexts (contentV2 fd cb2 .th logo qr)) := by
  refine ⟨fun lang => by cases lang <;> rfl, fun lang => by cases lang <;> rfl, ?_, ?_⟩
  · exact forall₂_ne_map (Bi.select · .en) (Bi.select · .th) _
      (pairsV1_ne fd.training_hours dateStr)
  · exact forall₂_ne_map (Bi.select · .en) (Bi.select · .th) _
      (pairsV2_ne fd.training_hours)

/-- C2: every rendered string field appears verbatim in its value cell
when nonempty and as the dash when empty (the value-cell list of both
variants is exactly the `orDash` image of the 19 form fields, and
`orDash` keeps nonempty strings and maps `""` to `"-"`); an all-empty
snapshot renders every value cell as the dash and generation still
succeeds; and in the Acme scenario the first table's first two rows
are `["Company:", "Acme Co"]` and `["Site Location:", "-"]` while the
checklist shows one unchecked glyph row per item of the active set
(15 for V1, 6 for V2). -/
theorem c2_placeholder_and_scenario (fd : FormData) (cb : Checkboxes)
    (cb2 : CheckboxesV2) (lang : Lang) (dateStr logo qr : String) :
    (valueTexts (contentV1 fd cb lang dateStr logo qr) =
      [orDash fd.company, orDash fd.site_location, orDash fd.contact_person,
       orDash fd.department, orDash fd.phone, orDash fd.email,
       orDash fd.pump_model, orDash fd.serial_number, orDash fd.manufacture_year,
       orDash fd.operating_hours, orDash fd.last_service_date, orDash fd.installation_date,
       orDash fd.temperature, orDash fd.flow_rate, orDash fd.suction_pressure,
       orDash fd.discharge_pressure, orDash fd.total_head, orDash fd.pumped_medium,
       orDash fd.service_reason]) ∧
    (valueTexts (contentV2 fd cb2 lang logo qr) =
      [orDash fd.company, orDash fd.site_location, orDash fd.contact_person,
       orDash fd.department, orDash fd.phone, orDash fd.email,
       orDash fd.pump_model, orDash fd.serial_number, orDash fd.manufacture_year,
       orDash fd.operating_hours, orDash fd.last_service_date, orDash fd.installation_date,
       orDash fd.temperature, orDash fd.flow_rate, orDash fd.suction_pressure,
       orDash fd.discharge_pressure, orDash fd.total_head, orDash fd.pumped_medium,
       orDash fd.service_reason]) ∧
    (∀ s, s ≠ "" → orDash s = s) ∧ orDash "" = "-" ∧
    (∀ s ∈ valueTexts (contentV1 emptyFd cb lang dateStr logo qr), s = "-") ∧
    (generatePDFModel envOk emptyFd cbAllFalse lang dateStr).result = .blob ∧
    (((tableBodies (contentV1 acmeFd cbAllFalse .en dateStr logo qr)).headD []).headD []).map
      Cell.text = ["Company:", "Acme Co"] ∧
    (((tableBodies (contentV1 acmeFd cbAllFalse .en dateStr logo qr)).headD []).getD 1 []).map
      Cell.text = ["Site Location:", "-"] ∧
    (((tableBodies (contentV2 acmeFd cb2AllFalse .en logo qr)).headD []).headD []).map
      Cell.text = ["Company:", "Acme Co"] ∧
    glyphRows (contentV1 acmeFd cbAllFalse .en dateStr logo qr) = List.replicate 15 false ∧
    glyphRows (contentV2 acmeFd cb2AllFalse .en logo qr) = List.replicate 6 false := by
  refine ⟨rfl, rfl, ?_, rfl, ?_, rfl, rfl, rfl, rfl, rfl, rfl⟩
  · intro s hs
    simp [orDash, hs]
  · intro s hs
    have : valueTexts (contentV1 emptyFd cb lang dateStr logo qr) =
        List.replicate 19 "-" := by cases lang <;> rfl
    rw [this] at hs
    exact List.eq_of_mem_replicate hs

/-- C2 witness: the hypothesis-bearing conjuncts discharged at concrete
inputs — a nonempty field stays verbatim and an all-empty V1 document
has the dash in its first value cell. -/
theorem c2_placeholder_and_scenario_witness :
    orDash "Acme Co" = "Acme Co" ∧
    "-" = "-" := by
  have h := c2_placeholder_and_scenario emptyFd cbAllFalse cb2AllFalse .en "d" "" ""
  exact ⟨h.2.2.1 "Acme Co" (by decide),
    h.2.2.2.2.1 "-" (by rw [(h.1 : valueTexts _ = _)]; decide)⟩

/-- C3: for an oversized image with width over 800, the first cap gives
target width exactly 800 and height `H * (800 / W)`; when that height
still exceeds 800, the second cap gives height exactly 800 and width
strictly below 800; and the code's once-computed aspect ratio yields
exactly the spec's compounded two-stage rescaling. -/
theorem c3_resize_two_stage (w h : ℚ) (hw : 800 < w) (hh : 0 < h) :
    (h * (800 / w) ≤ 800 → resizeDims w h = (800, h * (800 / w))) ∧
    (800 < h * (800 / w) →
      (resizeDims w h).2 = 800 ∧ (resizeDims w h).1 < 800) ∧
    resizeDims w h = specTwoStageResize w h := by
  have hw0 : w ≠ 0 := by positivity
  have hh0 : h ≠ 0 := ne_of_gt hh
  have key : 800 / (w / h) = h * (800 / w) := by
    field_simp
    ring
  have key2 : w * (800 / w) = 800 := by field_simp
  refine ⟨?_, ?_, ?_⟩
  · intro hle
    simp only [resizeDims, if_pos hw, key]
    rw [if_neg (by exact not_lt.mpr hle)]
  · intro hgt
    simp only [resizeDims, if_pos hw, key]
    rw [if_pos hgt]
    refine ⟨rfl, ?_⟩
    have hwpos : (0:ℚ) < w := by linarith
    have hwh : w < h := by
      have h1 : 800 * w < h * (800 / w) * w := (mul_lt_mul_right hwpos).2 hgt
      have h2 : h * (800 / w) * w = 800 * h := by field_simp; ring
      rw [h2] at h1
      linarith
    have hlt : w / h < 1 := (div_lt_one hh).2 hwh
    calc 800 * (w / h) < 800 * 1 := (mul_lt_mul_left (by norm_num)).2 hlt
      _ = 800 := by norm_num
  · simp only [resizeDims, specTwoStageResize, if_pos hw, key, key2]
    split_ifs with hgt
    · refine Prod.ext ?_ ?_
      · show 800 * (w / h) = 800 * (800 / (h * (800 / w)))
        field_simp
        ring
      · show (800 : ℚ) = h * (800 / w) * (800 / (h * (800 / w)))
        field_simp
        ring
    · rfl

/-- C3 witness: a 1000×2000 image is capped twice, to 400×800, and the
spec's compounded scaling agrees. -/
theorem c3_resize_two_stage_witness :
    resizeDims 1000 2000 = (400, 800) ∧ specTwoStageResize 1000 2000 = (400, 800) := by
  have h := (c3_resize_two_stage 1000 2000 (by norm_num) (by norm_num)).2.2
  have h1 : resizeDims 1000 2000 = (400, 800) := by
    norm_num [resizeDims]
  exact ⟨h1, h ▸ h1⟩

/-- C4: an image at or under the 500 KiB threshold is returned as the
raw fetched bytes encoded directly as a data URL (no recompression, no
dimension change), and the decode-resize-reencode JPEG path is taken
only when the byte size strictly exceeds the threshold. -/
theorem c4_small_image_passthrough (env : ImageEnv)
    (hfetch : env.fetchOk = true) :
    (env.bytes.length ≤ maxImageSize →
      loadImage env = .resolved (.dataUrl env.bytes)) ∧
    (∀ w h q, loadImage env = .resolved (.jpeg w h q) →
      maxImageSize < env.bytes.length ∧ q = 7 / 10) := by
  constructor
  · intro hle
    simp [loadImage, hfetch, not_lt.mpr hle]
  · intro w h q hres
    by_cases hc : maxImageSize < env.bytes.length
    · refine ⟨hc, ?_⟩
      by_cases hd : env.decodeOk = true
      · by_cases hctx : env.ctxOk = true
        · simp [loadImage, hfetch, hc, hd, hctx] at hres
          exact hres.2.2.symm
        · simp [loadImage, hfetch, hc, hd, hctx] at hres
      · simp [loadImage, hfetch, hc,
          (by simpa using hd : env.decodeOk = false)] at hres
    · exact absurd hres (by simp [loadImage, hfetch, not_lt.mpr (not_lt.mp hc)])

/-- C4 witness: the one-byte image comes back as its own bytes. -/
theorem c4_small_image_passthrough_witness :
    loadImage smallImg = .resolved (.dataUrl smallImg.bytes) :=
  (c4_small_image_passthrough smallImg rfl).1 (by decide)

/-- C5 counterexample: the claim says a decode failure makes
`loadImage` return an empty payload and the call always settles; in the
code the resize branch installs no `onerror` handler, so on an
oversized image whose decode fails the promise never settles — the
outcome is `pending`, not the resolved empty payload. -/
theorem c5_counterexample :
    loadImage bigImgNoDecode = .pending ∧
    LoadOutcome.pending ≠ .resolved .empty := by
  constructor
  · have hlen : bigBytes.length = maxImageSize + 1 := by simp [bigBytes]
    simp [loadImage, bigImgNoDecode, hlen]
  · exact fun hcontra => LoadOutcome.noConfusion hcontra

/-- C5 amended: only the canvas-context failure is recovered locally —
an oversized image whose decode succeeds but whose 2D context is
unavailable resolves to the empty payload and generation runs to
completion with the empty image slots; an oversized image whose decode
fails leaves the promise pending forever, so the generate call never
settles (and never raises). -/
theorem c5_empty_payload_on_ctx_failure (env : ImageEnv) (fd : FormData)
    (cb : Checkboxes) (lang : Lang) (dateStr : String)
    (hfetch : env.fetchOk = true) (hsize : maxImageSize < env.bytes.length) :
    (env.decodeOk = true → env.ctxOk = false → loadImage env = .resolved .empty) ∧
    (env.decodeOk = false → loadImage env = .pending) ∧
    (env.decodeOk = true → env.ctxOk = false →
      (generatePDFModel ⟨true, env, env⟩ fd cb lang dateStr).result = .blob ∧
      (generatePDFModel ⟨true, env, env⟩ fd cb lang dateStr).rendered =
        some (docDefV1 fd cb lang dateStr "" "")) ∧
    (env.decodeOk = false →
      (generatePDFModel ⟨true, env, env⟩ fd cb lang dateStr).result = .neverSettles) := by
  have hload : ∀ hd : env.decodeOk = true, ∀ hc : env.ctxOk = false,
      loadImage env = .resolved .empty := by
    intro hd hc
    simp [loadImage, hfetch, hsize, hd, hc]
  have hpend : env.decodeOk = false → loadImage env = .pending := by
    intro hd
    simp [loadImage, hfetch, hsize, hd]
  refine ⟨hload, hpend, ?_, ?_⟩
  · intro hd hc
    simp [generatePDFModel, hload hd hc, payloadText]
  · intro hd
    simp [generatePDFModel, hpend hd]

/-- C5 amended witness: an oversized image without a 2D context
resolves empty and generation completes. -/
theorem c5_empty_payload_on_ctx_failure_witness :
    loadImage bigImgNoCtx = .resolved .empty ∧
    (generatePDFModel ⟨true, bigImgNoCtx, bigImgNoCtx⟩ emptyFd cbAllFalse .en "d").result =
      .blob := by
  have h := c5_empty_payload_on_ctx_failure bigImgNoCtx emptyFd cbAllFalse .en "d"
    rfl (by simp [bigImgNoCtx, bigBytes])
  exact ⟨h.1 rfl rfl, (h.2.2.1 rfl rfl).1⟩

/-- C6 counterexample: the claim says the Thai document uses a
Thai-script family; in the `generatePDF.ts` variant the default style's
font is the constant `'Roboto'` even for Thai, and Roboto is the only
family registered. -/
theorem c6_counterexample :
    (docDefV1 emptyFd cbAllFalse .th "d" "" "").defaultStyle.font = "Roboto" ∧
    "Roboto" ≠ "THSarabunNew" ∧
    registeredFontsV1 = ["Roboto"] :=
  ⟨rfl, by decide, rfl⟩

/-- C6 amended: exactly one font family is active globally per
document and no style carries a per-block font override; the family is
keyed by language only in the `part_003` variant (Roboto for `en`,
THSarabunNew for `th`), while the `generatePDF.ts` variant uses Roboto
for both languages. -/
theorem c6_one_global_font_family (fd : FormData) (cb : Checkboxes)
    (cb2 : CheckboxesV2) (lang : Lang) (dateStr logo qr : String) :
    (docDefV2 fd cb2 lang logo qr).defaultStyle.font =
      (if lang = .en then "Roboto" else "THSarabunNew") ∧
    (docDefV1 fd cb lang dateStr logo qr).defaultStyle.font = "Roboto" ∧
    registeredFontsV2 = ["Roboto", "THSarabunNew"] ∧
    (∀ p ∈ (docDefV1 fd cb lang dateStr logo qr).styles, p.2.font = none) ∧
    (∀ p ∈ (docDefV2 fd cb2 lang logo qr).styles, p.2.font = none) := by
  refine ⟨rfl, rfl, rfl, ?_, ?_⟩
  · have h : (docDefV1 fd cb lang dateStr logo qr).styles = stylesV1 := rfl
    rw [h]
    decide
  · have h : (docDefV2 fd cb2 lang logo qr).styles = stylesV2 := rfl
    rw [h]
    decide

/-- C6 amended witness: at a concrete Thai V2 document the global
family is the Thai one. -/
theorem c6_one_global_font_family_witness :
    (docDefV2 emptyFd cb2AllFalse .th "" "").defaultStyle.font = "THSarabunNew" := by
  have h := (c6_one_global_font_family emptyFd cbAllFalse cb2AllFalse .th "d" "" "").1
  simpa using h

/-- C7: the safety-training label carries the training-hours value in
parentheses with the language-appropriate unit word exactly when the
field is a nonempty string, and is the bare question (no parentheses at
all) when the field is empty or absent — for the English label and both
variants' Thai labels. -/
theorem c7_training_hours_parenthetical (t : Option String) :
    (∀ s, t = some s → s ≠ "" →
      safetyLabelEn t = "Safety Training required? (" ++ s ++ " hours)" ∧
      safetyLabelThV1 t = "ต้องรารการฝึกอบรมความปลอดภัยหรือไม่? (" ++ s ++ " ชั่วโมง)" ∧
      safetyLabelThV2 t = "ต้องการการฝึกอบรมความปลอดภัยหรือไม่? (" ++ s ++ " ชั่วโมง)") ∧
    ((t = none ∨ t = some "") →
      safetyLabelEn t = "Safety Training required? " ∧
      safetyLabelThV1 t = "ต้องรารการฝึกอบรมความปลอดภัยหรือไม่? " ∧
      safetyLabelThV2 t = "ต้องการการฝึกอบรมความปลอดภัยหรือไม่? ") := by
  constructor
  · rintro s rfl hs
    have ht : jsTruthy (some s) = true := by simp [jsTruthy, hs]
    refine ⟨?_, ?_, ?_⟩
    · show "Safety Training required? " ++ _ = _
      simp only [ht, if_true, optVal]
      rw [← String.append_assoc, ← String.append_assoc,
        (by decide : "Safety Training required? " ++ "(" = "Safety Training required? (")]
    · show "ต้องรารการฝึกอบรมความปลอดภัยหรือไม่? " ++ _ = _
      simp only [ht, if_true, optVal]
      rw [← String.append_assoc, ← String.append_assoc,
        (by decide : "ต้องรารการฝึกอบรมความปลอดภัยหรือไม่? " ++ "(" =
          "ต้องรารการฝึกอบรมความปลอดภัยหรือไม่? (")]
    · show "ต้องการการฝึกอบรมความปลอดภัยหรือไม่? " ++ _ = _
      simp only [ht, if_true, optVal]
      rw [← String.append_assoc, ← String.append_assoc,
        (by decide : "ต้องการการฝึกอบรมความปลอดภัยหรือไม่? " ++ "(" =
          "ต้องการการฝึกอบรมความปลอดภัยหรือไม่? (")]
  · rintro (rfl | rfl) <;> exact ⟨by decide, by decide, by decide⟩

/-- C7 witness: `training_hours = "8"` renders `(8 hours)`, an absent
value renders the bare question. -/
theorem c7_training_hours_parenthetical_witness :
    safetyLabelEn (some "8") = "Safety Training required? (8 hours)" ∧
    safetyLabelEn none = "Safety Training required? " := by
  have h := c7_training_hours_parenthetical (some "8")
  have h2 := c7_training_hours_parenthetical none
  exact ⟨(h.1 "8" rfl (by decide)).1, (h2.2 (Or.inl rfl)).1⟩

/-- C8 counterexample: the claim says the post-pass assigns the custom
rule set to every table in the tree; in the `generatePDF.ts` variant
the three tables are nested inside section stacks, the top-level-only
post-pass matches none of them, and they keep the inline layout-name
string, which is not the custom rule set. -/
theorem c8_counterexample :
    tableLayouts (applyTableLayouts (contentV1 emptyFd cbAllFalse .en "d" "" "")) =
      [.named "lightHorizontalLines", .named "lightHorizontalLines",
       .named "lightHorizontalLines"] ∧
    TableLayoutRef.named "lightHorizontalLines" ≠
      TableLayoutRef.custom lightHorizontalLinesRules :=
  ⟨rfl, fun hcontra => TableLayoutRef.noConfusion hcontra⟩

/-- C8 amended: the post-pass assigns the `lightHorizontalLines` rule
set (0.5-width rules between rows only, zero-width vertical rules,
light-gray color, 0/0/8/8 paddings) to every top-level table block; in
the `part_003` variant every table is top-level so all of them carry
it, while in `generatePDF.ts` the nested tables keep the inline layout
name. -/
theorem c8_table_layout_post_pass (fd : FormData) (cb : Checkboxes)
    (cb2 : CheckboxesV2) (lang : Lang) (dateStr logo qr : String) :
    tableLayouts (applyTableLayouts (contentV2 fd cb2 lang logo qr)) =
      [.custom lightHorizontalLinesRules, .custom lightHorizontalLinesRules,
       .custom lightHorizontalLinesRules] ∧
    tableLayouts (applyTableLayouts (contentV1 fd cb lang dateStr logo qr)) =
      [.named "lightHorizontalLines", .named "lightHorizontalLines",
       .named "lightHorizontalLines"] ∧
    (∀ i n, lightHorizontalLinesRules.hLineWidth i n =
      if i = 0 ∨ i = n then 0 else 1 / 2) ∧
    lightHorizontalLinesRules.vLineWidth = 0 ∧
    lightHorizontalLinesRules.hLineColor = "#E5E7EB" ∧
    lightHorizontalLinesRules.paddingLeft = 0 ∧
    lightHorizontalLinesRules.paddingRight = 0 ∧
    lightHorizontalLinesRules.paddingTop = 8 ∧
    lightHorizontalLinesRules.paddingBottom = 8 :=
  ⟨rfl, rfl, fun _ _ => rfl, rfl, rfl, rfl, rfl, rfl, rfl⟩

/-- C9 counterexample: the claim says the pre-service-only variant's
notes list has exactly 6 items; `part_003` renders its fixed notes
list, which has 5 entries, not 6. -/
theorem c9_counterexample :
    ulItems (contentV2 emptyFd cb2AllFalse .en "" "") =
      [importantNotesV2.map (Bi.select · .en)] ∧
    (importantNotesV2.map (Bi.select · .en)).length = 5 ∧
    importantNotesV2.length ≠ 6 :=
  ⟨rfl, rfl, by decide⟩

/-- C9 amended: the notes section of each variant is the fixed bulleted
list keyed only by language (the rendered list is a constant projection,
independent of form and checklist data), with 7 entries in the full
`generatePDF.ts` variant and 5 entries in the pre-service-only
`part_003` variant. -/
theorem c9_notes_fixed_lists (fd : FormData) (cb : Checkboxes)
    (cb2 : CheckboxesV2) (lang : Lang) (dateStr logo qr : String) :
    ulItems (contentV1 fd cb lang dateStr logo qr) =
      [importantNotesV1.map (Bi.select · lang)] ∧
    ulItems (contentV2 fd cb2 lang logo qr) =
      [importantNotesV2.map (Bi.select · lang)] ∧
    importantNotesV1.length = 7 ∧
    importantNotesV2.length = 5 :=
  ⟨rfl, rfl, rfl, rfl⟩

/-- C10: when no `window` global exists, `generatePDF` resolves to the
null outcome immediately — no asset fetched, no document definition
built, no engine invocation. -/
theorem c10_window_undefined_null (env : GenEnv) (fd : FormData) (cb : Checkboxes)
    (lang : Lang) (dateStr : String) (h : env.windowDefined = false) :
    generatePDFModel env fd cb lang dateStr = ⟨.nullResult, [], none⟩ := by
  simp [generatePDFModel, h]

/-- C10 witness: the window-less environment returns the null outcome. -/
theorem c10_window_undefined_null_witness :
    generatePDFModel envNoWindow emptyFd cbAllFalse .en "d" =
      ⟨.nullResult, [], none⟩ :=
  c10_window_undefined_null envNoWindow emptyFd cbAllFalse .en "d" rfl

end PumpChecklist
